import Mathlib

/-!
Verification of the streaming chord-inference service in `src/api/main.py`
(repository Satsujjinn/Clockworkred) against its natural-language specification.

The file shallowly embeds the request/response pipeline (`MusicService.__call__`),
the websocket session loop (`websocket_endpoint`, `_heartbeat`, `_process_audio`,
`WSMessage`), and the cache call sites.  External collaborators
(`load_audio`, `extract_mfcc`, `denoise`, `ChordSuggester.suggest`,
`AccompanimentGenerator.generate`) are pure functions supplied as parameters,
returning `Except` to model Python exceptions.  `RedisCache` and the internals of
`AdaptiveBuffer`/`ConnectionManager` live outside the provided source tree, so
their behaviour is modelled from the spec where a claim depends on it (marked in
the doc comments).
-/

namespace ClockworkRed

/-- Collaborator/typed errors: a Python exception raised by an external call. -/
abbrev Err := String

/-- Feature representation produced by `extract_mfcc` / consumed by `denoise`,
`ChordSuggester.suggest`.  The pipeline treats it opaquely. -/
abbrev Features := List Int

/-- `ChordResponse` pydantic model (main.py lines 63-65). -/
structure ChordResponse where
  chords : List String
  accompaniment : List String
deriving DecidableEq, Repr

/-- The external collaborators the pipeline calls, per the call sites in
`MusicService.__call__` and `_process_audio`.  Each is a pure function that may
fail (a raised exception becomes `Except.error`). -/
structure Collaborators where
  load_audio : String → Except Err (List Nat)
  extract_mfcc : List Nat → Except Err Features
  denoise : Features → Except Err Features
  suggest : Features → Except Err (List String)
  generate : List String → Except Err (List String)

/-- The named pipeline stages, for recording which calls an invocation makes
and in which order. -/
inductive Step where
  | decode
  | extract
  | denoiseStep
  | cacheGet
  | suggestStep
  | cacheSet
  | accomp
deriving DecidableEq, Repr

/-- How a call is executed: `threadpool` for `await run_in_threadpool(...)`,
`awaited` for a plain `await` of an async collaborator, `inlineSync` for a
synchronous call made directly on the event loop. -/
inductive Dispatch where
  | threadpool
  | awaited
  | inlineSync
deriving DecidableEq, Repr

/-- Modelled from the spec: `RedisCache` lives in `src/utils/cache.py`, which is
not in the provided source tree; only its call sites (`get_chords` /
`set_chords` in `MusicService.__call__`) are.  Per spec §4.2 the cache is a
fingerprint→result store whose `get` degrades to a miss on a backend outage and
whose `set` is a best-effort write that swallows backend failures; a `get`
immediately after a successful `set` of the same key returns the stored value.
`backendUp` models whether the Redis backend is reachable. -/
structure RedisCache where
  entries : List (Features × List String)
  backendUp : Bool
deriving DecidableEq, Repr

/-- First-match association lookup for the cache entry list. -/
def lookupEntry : List (Features × List String) → Features → Option (List String)
  | [], _ => none
  | (k, v) :: rest, f => if k = f then some v else lookupEntry rest f

/-- Modelled from the spec: `get_chords` returns the cached chords or `none`;
when the backend is down it degrades to a guaranteed miss instead of raising. -/
def RedisCache.get_chords (c : RedisCache) (f : Features) : Option (List String) :=
  if c.backendUp then lookupEntry c.entries f else none

/-- Modelled from the spec: `set_chords` is a best-effort write; when the
backend is down the failure is swallowed and the cache is unchanged. -/
def RedisCache.set_chords (c : RedisCache) (f : Features) (cs : List String) : RedisCache :=
  if c.backendUp then { c with entries := (f, cs) :: c.entries } else c

/-- Shallow embedding of `MusicService.__call__` (main.py lines 140-150):

```python
audio_bytes = await load_audio(req.file_path)
features = await run_in_threadpool(extract_mfcc, audio_bytes)
features = await run_in_threadpool(denoise, features)
chords = await self.cache.get_chords(features)
if chords is None:
    chords = await run_in_threadpool(self.suggester.suggest, features)
    await self.cache.set_chords(features, chords)
accompaniment = await run_in_threadpool(self.generator.generate, chords)
return ChordResponse(chords=chords, accompaniment=accompaniment)
```

Returns the response (or the propagated exception), the resulting cache state,
and the trace of calls made, each tagged with its dispatch mode. -/
def serviceCall (co : Collaborators) (cache : RedisCache) (path : String) :
    Except Err ChordResponse × RedisCache × List (Step × Dispatch) :=
  match co.load_audio path with
  | .error e => (.error e, cache, [(.decode, .awaited)])
  | .ok audioBytes =>
    match co.extract_mfcc audioBytes with
    | .error e => (.error e, cache, [(.decode, .awaited), (.extract, .threadpool)])
    | .ok rawFeatures =>
      match co.denoise rawFeatures with
      | .error e => (.error e, cache,
          [(.decode, .awaited), (.extract, .threadpool), (.denoiseStep, .threadpool)])
      | .ok features =>
        match cache.get_chords features with
        | some chords =>
          match co.generate chords with
          | .error e => (.error e, cache,
              [(.decode, .awaited), (.extract, .threadpool), (.denoiseStep, .threadpool),
               (.cacheGet, .awaited), (.accomp, .threadpool)])
          | .ok accompaniment =>
            (.ok ⟨chords, accompaniment⟩, cache,
              [(.decode, .awaited), (.extract, .threadpool), (.denoiseStep, .threadpool),
               (.cacheGet, .awaited), (.accomp, .threadpool)])
        | none =>
          match co.suggest features with
          | .error e => (.error e, cache,
              [(.decode, .awaited), (.extract, .threadpool), (.denoiseStep, .threadpool),
               (.cacheGet, .awaited), (.suggestStep, .threadpool)])
          | .ok chords =>
            match co.generate chords with
            | .error e => (.error e, cache.set_chords features chords,
                [(.decode, .awaited), (.extract, .threadpool), (.denoiseStep, .threadpool),
                 (.cacheGet, .awaited), (.suggestStep, .threadpool), (.cacheSet, .awaited),
                 (.accomp, .threadpool)])
            | .ok accompaniment =>
              (.ok ⟨chords, accompaniment⟩, cache.set_chords features chords,
                [(.decode, .awaited), (.extract, .threadpool), (.denoiseStep, .threadpool),
                 (.cacheGet, .awaited), (.suggestStep, .threadpool), (.cacheSet, .awaited),
                 (.accomp, .threadpool)])

/-! ## Websocket session model -/

/-- Parsed JSON values, as delivered by `websocket.receive_json()`. -/
inductive Json where
  | null
  | bool (b : Bool)
  | num (n : Int)
  | str (s : String)
  | arr (elems : List Json)
  | obj (fields : List (String × Json))

/-- First-match field lookup in a parsed JSON object (a parsed Python dict has
unique keys). -/
def lookupField : List (String × Json) → String → Option Json
  | [], _ => none
  | (k, v) :: rest, key => if k = key then some v else lookupField rest key

/-- `WSMessage(**data)` validation (main.py lines 198-199, 230): the envelope
must be a JSON object whose `data` field is a string; extra fields are ignored
(pydantic's default).  Returns the `data` payload on success. -/
def wsValidate : Json → Option String
  | .obj fields =>
    match lookupField fields "data" with
    | some (.str s) => some s
    | _ => none
  | _ => none

/-- One inbound websocket frame: either text that parsed as JSON, or text that
`receive_json()` failed to parse (which raises). -/
inductive Inbound where
  | text (j : Json)
  | invalid

/-- A frame is malformed when it is invalid JSON or fails `WSMessage`
validation. -/
def wsMalformed : Inbound → Bool
  | .invalid => true
  | .text j => (wsValidate j).isNone

/-- UTF-8 encoding of one character (Python `str.encode()` default codec). -/
def utf8EncodeChar (c : Char) : List Nat :=
  let n := c.toNat
  if n < 0x80 then [n]
  else if n < 0x800 then
    [0xC0 ||| (n >>> 6), 0x80 ||| (n &&& 0x3F)]
  else if n < 0x10000 then
    [0xE0 ||| (n >>> 12), 0x80 ||| ((n >>> 6) &&& 0x3F), 0x80 ||| (n &&& 0x3F)]
  else
    [0xF0 ||| (n >>> 18), 0x80 ||| ((n >>> 12) &&& 0x3F), 0x80 ||| ((n >>> 6) &&& 0x3F),
     0x80 ||| (n &&& 0x3F)]

/-- UTF-8 encoding of a string: `msg.data.encode()` in main.py line 231. -/
def encodeUtf8 (s : String) : List Nat :=
  s.data.foldr (fun c acc => utf8EncodeChar c ++ acc) []

/-- Outbound messages the session can send (main.py lines 205, 214, 227, 232). -/
inductive OutMsg where
  | ready
  | ack
  | ping
  | chords (cs : List String)
deriving DecidableEq, Repr

/-- Observable actions of one receive-loop iteration or of session teardown. -/
inductive Action where
  | bufferAdd (bytes : List Nat)
  | sendAck
  | cancelPing
  | cancelProcess
  | closeBuffer
  | disconnectCall
deriving DecidableEq, Repr

/-- State of one websocket session: the bytes accumulated in its
`AdaptiveBuffer`, the outbound messages sent so far, and the liveness of its
three activities (`alive` = receive loop / connection, `procAlive` =
`_process_audio` task, `hbAlive` = `_heartbeat` task), plus whether the buffer
was ever closed and whether `manager.disconnect` ran. -/
structure SessionState where
  bufferData : List Nat
  outbound : List OutMsg
  alive : Bool
  procAlive : Bool
  hbAlive : Bool
  bufferClosed : Bool
  disconnected : Bool
deriving DecidableEq, Repr

/-- Session state right after `websocket_endpoint` starts: buffer empty, the
`{"ready": true}` message sent, all three activities running (main.py lines
222-227). -/
def sessionInit : SessionState :=
  { bufferData := []
    outbound := [.ready]
    alive := true
    procAlive := true
    hbAlive := true
    bufferClosed := false
    disconnected := false }

/-- The `finally` block of `websocket_endpoint` (main.py lines 235-238):
`ping_task.cancel(); process_task.cancel(); await manager.disconnect(websocket)`.
Note there is no `buffer` close call, so `bufferClosed` is left as it was. -/
def teardown (st : SessionState) : SessionState :=
  { st with alive := false, procAlive := false, hbAlive := false, disconnected := true }

/-- The actions the `finally` block performs, in order. -/
def teardownActions : List Action :=
  [.cancelPing, .cancelProcess, .disconnectCall]

/-- One iteration of the receive loop (main.py lines 229-232): parse, validate
with `WSMessage`, append `msg.data.encode()` to the `AdaptiveBuffer`, then send
`{"ack": true}`.  A parse or validation failure raises past the
`except WebSocketDisconnect` handler, so the `finally` teardown runs.  Returns
the new state and the ordered actions taken. -/
def receiveMessage (st : SessionState) (m : Inbound) : SessionState × List Action :=
  match m with
  | .invalid => (teardown st, teardownActions)
  | .text j =>
    match wsValidate j with
    | none => (teardown st, teardownActions)
    | some s =>
      ({ st with
          bufferData := st.bufferData ++ encodeUtf8 s
          outbound := st.outbound ++ [.ack] },
       [.bufferAdd (encodeUtf8 s), .sendAck])

/-- One iteration of `_process_audio` (main.py lines 208-214) for one feature
window emitted by the buffer: `chords = suggester.suggest(features)` — a
synchronous call made inline on the event loop — then the `{"chords": ...}`
message.  Returns the message (or the escaped exception, which kills the task)
and the trace of pipeline calls made, tagged with their dispatch mode. -/
def processWindow (suggest : Features → Except Err (List String)) (w : Features) :
    Except Err OutMsg × List (Step × Dispatch) :=
  match suggest w with
  | .ok cs => (.ok (.chords cs), [(.suggestStep, .inlineSync)])
  | .error e => (.error e, [(.suggestStep, .inlineSync)])

/-- Events driving one session: an inbound frame, a heartbeat tick of
`_heartbeat` (one 10-second interval elapsing), or the `AdaptiveBuffer`
emitting a feature window to `_process_audio`. -/
inductive SessEvent where
  | recv (m : Inbound)
  | tick
  | window (w : Features)

/-- Small-step semantics of one session: a torn-down session ignores events
(all its tasks are cancelled); a live session handles a frame via the receive
loop, sends `{"type": "ping"}` on a heartbeat tick, and on an emitted window
runs `_process_audio`'s body — on success sending the chords message, on an
escaped exception silently killing the processing task (later windows are no
longer consumed). -/
def sessionStep (suggest : Features → Except Err (List String))
    (st : SessionState) (e : SessEvent) : SessionState :=
  if st.alive then
    match e with
    | .recv m => (receiveMessage st m).1
    | .tick => { st with outbound := st.outbound ++ [.ping] }
    | .window w =>
      if st.procAlive then
        match (processWindow suggest w).1 with
        | .ok msg => { st with outbound := st.outbound ++ [msg] }
        | .error _ => { st with procAlive := false }
      else st
  else st

/-- A whole session run from the initial state over a list of events. -/
def sessionRun (suggest : Features → Except Err (List String))
    (events : List SessEvent) : SessionState :=
  events.foldl (sessionStep suggest) sessionInit

/-- An event is clean when it cannot fault: the frame passes validation, or the
suggester succeeds on the window. -/
def validEvent (suggest : Features → Except Err (List String)) : SessEvent → Bool
  | .recv m => !wsMalformed m
  | .tick => true
  | .window w => match suggest w with | .ok _ => true | .error _ => false

/-- The single outbound message a clean event produces. -/
def emitOne (suggest : Features → Except Err (List String)) : SessEvent → OutMsg
  | .recv _ => .ack
  | .tick => .ping
  | .window w => .chords ((suggest w).toOption.getD [])

/-! ## Shared concrete instances for witnesses and counterexamples -/

-- Equality of `Except` values is decidable componentwise.
deriving instance DecidableEq for Except

/-- The trace of a pipeline invocation whose cache lookup hits. -/
def hitTrace : List (Step × Dispatch) :=
  [(.decode, .awaited), (.extract, .threadpool), (.denoiseStep, .threadpool),
   (.cacheGet, .awaited), (.accomp, .threadpool)]

/-- The trace of a pipeline invocation whose cache lookup misses. -/
def missTrace : List (Step × Dispatch) :=
  [(.decode, .awaited), (.extract, .threadpool), (.denoiseStep, .threadpool),
   (.cacheGet, .awaited), (.suggestStep, .threadpool), (.cacheSet, .awaited),
   (.accomp, .threadpool)]

/-- The CPU-bound pipeline stages named by spec §4.4 (steps 1, 2, 5, 6). -/
def cpuStep : Step → Bool
  | .extract => true
  | .denoiseStep => true
  | .suggestStep => true
  | .accomp => true
  | _ => false

/-- A trace respects the offloading policy when every CPU-bound call in it is
dispatched to the worker pool. -/
def threadpooled (tr : List (Step × Dispatch)) : Bool :=
  tr.all fun p => !cpuStep p.1 || decide (p.2 = Dispatch.threadpool)

/-- Deterministic demo collaborators with all calls succeeding. -/
def coDemo : Collaborators :=
  { load_audio := fun _ => .ok [7, 8]
    extract_mfcc := fun b => .ok (b.map Int.ofNat)
    denoise := fun f => .ok f
    suggest := fun _ => .ok ["C", "G"]
    generate := fun cs => .ok ("tab" :: cs) }

/-- Demo collaborators whose accompaniment generation fails. -/
def coAccFail : Collaborators :=
  { load_audio := fun _ => .ok [7, 8]
    extract_mfcc := fun b => .ok (b.map Int.ofNat)
    denoise := fun f => .ok f
    suggest := fun _ => .ok ["C", "G"]
    generate := fun _ => .error "accompaniment backend down" }

/-- A demo suggester that always succeeds. -/
def sgDemo : Features → Except Err (List String) := fun _ => .ok ["C"]

/-- A demo suggester that always fails. -/
def sgFail : Features → Except Err (List String) := fun _ => .error "llm down"

/-! ## Claims -/

/-- Core hit/miss characterization of `serviceCall` once decode, extraction
and denoising have succeeded (shared helper). -/
theorem serviceCall_hit_miss (co : Collaborators) (cache : RedisCache) (path : String)
    (ab : List Nat) (f1 f2 : Features)
    (hl : co.load_audio path = .ok ab)
    (hx : co.extract_mfcc ab = .ok f1)
    (hd : co.denoise f1 = .ok f2) :
    (∀ cs acc, cache.get_chords f2 = some cs → co.generate cs = .ok acc →
        serviceCall co cache path = (.ok ⟨cs, acc⟩, cache, hitTrace)) ∧
    (∀ cs acc, cache.get_chords f2 = none → co.suggest f2 = .ok cs →
        co.generate cs = .ok acc →
        serviceCall co cache path = (.ok ⟨cs, acc⟩, cache.set_chords f2 cs, missTrace)) := by
  constructor
  · intro cs acc hg hge
    simp [serviceCall, hitTrace, hl, hx, hd, hg, hge]
  · intro cs acc hg hs hge
    simp [serviceCall, missTrace, hl, hx, hd, hg, hs, hge]

/-- Claim C1: on every `MusicService.__call__` invocation the steps run in the
order decode, feature extraction, denoise, cache lookup; only on a miss do
chord suggestion and the cache store follow; accompaniment generation runs
last; the response combines the chords with the accompaniment; and on a hit
the suggestion and the cache store are skipped. -/
theorem serviceCall_step_order (co : Collaborators) (cache : RedisCache) (path : String)
    (ab : List Nat) (f1 f2 : Features)
    (hl : co.load_audio path = .ok ab)
    (hx : co.extract_mfcc ab = .ok f1)
    (hd : co.denoise f1 = .ok f2) :
    (∀ cs acc, cache.get_chords f2 = some cs → co.generate cs = .ok acc →
        serviceCall co cache path = (.ok ⟨cs, acc⟩, cache, hitTrace)) ∧
    (∀ cs acc, cache.get_chords f2 = none → co.suggest f2 = .ok cs →
        co.generate cs = .ok acc →
        serviceCall co cache path = (.ok ⟨cs, acc⟩, cache.set_chords f2 cs, missTrace)) :=
  serviceCall_hit_miss co cache path ab f1 f2 hl hx hd

/-- Witness for `serviceCall_step_order`: a concrete cache-hit run (suggestion
and store skipped) and a concrete cache-miss run (suggestion then store). -/
theorem serviceCall_step_order_witness :
    (serviceCall coDemo { entries := [([7, 8], ["Am"])], backendUp := true } "x" =
      (.ok ⟨["Am"], ["tab", "Am"]⟩,
        { entries := [([7, 8], ["Am"])], backendUp := true }, hitTrace)) ∧
    (serviceCall coDemo { entries := [], backendUp := true } "x" =
      (.ok ⟨["C", "G"], ["tab", "C", "G"]⟩,
        { entries := [([7, 8], ["C", "G"])], backendUp := true }, missTrace)) :=
  ⟨(serviceCall_step_order coDemo { entries := [([7, 8], ["Am"])], backendUp := true }
      "x" [7, 8] [7, 8] [7, 8] rfl rfl rfl).1 ["Am"] ["tab", "Am"] rfl rfl,
   (serviceCall_step_order coDemo { entries := [], backendUp := true }
      "x" [7, 8] [7, 8] [7, 8] rfl rfl rfl).2 ["C", "G"] ["tab", "C", "G"] rfl rfl rfl⟩

/-- Claim C2 counterexample: a malformed inbound message does not keep the
session alive.  An envelope without a string `data` field (and likewise an
invalid-JSON frame) raises past the `except WebSocketDisconnect` handler of
`websocket_endpoint`, so the `finally` teardown cancels the tasks and
disconnects the session, contradicting the claim that the session survives and
that only transport-level failures terminate it. -/
theorem malformed_terminates_session_cex :
    ((receiveMessage sessionInit (.text (.obj [("foo", .null)]))).1.alive = false) ∧
    ((receiveMessage sessionInit (.text (.obj [("foo", .null)]))).1.disconnected = true) ∧
    ((receiveMessage sessionInit .invalid).1.alive = false) := by
  decide

/-- Claim C2 (amended): a malformed inbound message (invalid JSON or failed
`WSMessage` validation) adds no bytes to the `AdaptiveBuffer` and no
acknowledgment is sent, but — contrary to the original claim — it terminates
the session: the receive loop's exception triggers the full teardown, so
termination is not limited to transport-level failures. -/
theorem malformed_message_policy (st : SessionState) (m : Inbound)
    (h : wsMalformed m = true) :
    receiveMessage st m = (teardown st, teardownActions) ∧
    (receiveMessage st m).1.bufferData = st.bufferData ∧
    Action.sendAck ∉ (receiveMessage st m).2 ∧
    (receiveMessage st m).1.alive = false := by
  cases m with
  | invalid =>
    refine ⟨rfl, rfl, ?_, rfl⟩
    simp [receiveMessage, teardownActions]
  | text j =>
    have hv : wsValidate j = none := by
      cases hv : wsValidate j with
      | none => rfl
      | some s => rw [wsMalformed, hv] at h; simp at h
    refine ⟨?_, ?_, ?_, ?_⟩ <;> simp [receiveMessage, hv, teardown, teardownActions]

/-- Witness for `malformed_message_policy` at a concrete envelope whose `data`
field is a number rather than a string. -/
theorem malformed_message_policy_witness :
    receiveMessage sessionInit (.text (.obj [("data", .num 3)])) =
      (teardown sessionInit, teardownActions) ∧
    (receiveMessage sessionInit (.text (.obj [("data", .num 3)]))).1.bufferData =
      sessionInit.bufferData ∧
    Action.sendAck ∉ (receiveMessage sessionInit (.text (.obj [("data", .num 3)]))).2 ∧
    (receiveMessage sessionInit (.text (.obj [("data", .num 3)]))).1.alive = false :=
  malformed_message_policy sessionInit (.text (.obj [("data", .num 3)])) (by decide)

/-- Claim C3 counterexample: processing one concrete feature window in the
streaming session makes no denoising call and no cache call — the trace of
`_process_audio`'s body contains only the suggestion step — contradicting the
claim that the full `InferencePipeline` (with denoise and a read-through cache
lookup) runs per emitted window. -/
theorem streaming_skips_pipeline_cex :
    ((processWindow sgDemo [1, 2]).1 = .ok (.chords ["C"])) ∧
    Step.denoiseStep ∉ (processWindow sgDemo [1, 2]).2.map Prod.fst ∧
    Step.cacheGet ∉ (processWindow sgDemo [1, 2]).2.map Prod.fst ∧
    Step.cacheSet ∉ (processWindow sgDemo [1, 2]).2.map Prod.fst := by
  decide

/-- Claim C3 (amended): for every feature window emitted in a streaming
session, the processing task runs only the chord-suggestion collaborator —
inline, with no decode, no denoising and no `ResultCache` access — and sends
the resulting `{"chords": ...}` message; the full request/response pipeline is
not reused. -/
theorem streaming_suggest_only (sg : Features → Except Err (List String)) (w : Features) :
    processWindow sg w =
      (Except.map OutMsg.chords (sg w), [(Step.suggestStep, Dispatch.inlineSync)]) := by
  cases h : sg w <;> simp [processWindow, h, Except.map]

/-- Claim C4 counterexample: tearing down a live session leaves the
`AdaptiveBuffer` unclosed — `websocket_endpoint`'s `finally` block cancels the
two tasks and disconnects but never closes the buffer — contradicting the
claim that the buffer is closed whenever a session terminates. -/
theorem teardown_leaves_buffer_open_cex :
    ((teardown sessionInit).disconnected = true) ∧
    ((teardown sessionInit).hbAlive = false) ∧
    ((teardown sessionInit).procAlive = false) ∧
    ((teardown sessionInit).bufferClosed = false) ∧
    Action.closeBuffer ∉ teardownActions := by
  decide

/-- Claim C4 (amended): whenever a session terminates, the heartbeat task, the
processing task and the receive loop all end together and
`SessionManager.disconnect` is called — no partial-liveness state — but,
contrary to the original claim, the `AdaptiveBuffer` is never closed (its
`bufferClosed` flag is left exactly as it was, and no close action appears in
the teardown's action list). -/
theorem teardown_all_activities (st : SessionState) :
    (teardown st).alive = false ∧
    (teardown st).procAlive = false ∧
    (teardown st).hbAlive = false ∧
    (teardown st).disconnected = true ∧
    (teardown st).bufferClosed = st.bufferClosed ∧
    Action.closeBuffer ∉ teardownActions :=
  ⟨rfl, rfl, rfl, rfl, rfl, by decide⟩

/-- Claim C5 counterexample: when accompaniment generation fails after a
cache-miss suggestion, the unit aborts with an error but a cache entry HAS
been written for that unit, contradicting the claim that a collaborator
failure leaves no cache entry written. -/
theorem accomp_failure_cache_write_cex :
    ((serviceCall coAccFail { entries := [], backendUp := true } "x").1 =
      .error "accompaniment backend down") ∧
    ((serviceCall coAccFail { entries := [], backendUp := true } "x").2.1 =
      { entries := [([7, 8], ["C", "G"])], backendUp := true }) := by
  decide

/-- Claim C5 (amended): a failing collaborator call aborts its unit of work
with the raised error; no cache entry is written when the failure is at or
before the suggestion step, while a failure in accompaniment generation after
a cache-miss suggestion leaves the already-written entry in place; and in the
streaming path a suggestion failure does not terminate the session — later
messages are still acknowledged — though it permanently stops chord output. -/
theorem collaborator_failure_policy (co : Collaborators) (cache : RedisCache) (path : String)
    (sg : Features → Except Err (List String)) (w : Features) (j : Json) :
    (∀ e, co.load_audio path = .error e →
        (serviceCall co cache path).1 = .error e ∧
        (serviceCall co cache path).2.1 = cache) ∧
    (∀ ab e, co.load_audio path = .ok ab → co.extract_mfcc ab = .error e →
        (serviceCall co cache path).1 = .error e ∧
        (serviceCall co cache path).2.1 = cache) ∧
    (∀ ab f1 e, co.load_audio path = .ok ab → co.extract_mfcc ab = .ok f1 →
        co.denoise f1 = .error e →
        (serviceCall co cache path).1 = .error e ∧
        (serviceCall co cache path).2.1 = cache) ∧
    (∀ ab f1 f2 e, co.load_audio path = .ok ab → co.extract_mfcc ab = .ok f1 →
        co.denoise f1 = .ok f2 → cache.get_chords f2 = none → co.suggest f2 = .error e →
        (serviceCall co cache path).1 = .error e ∧
        (serviceCall co cache path).2.1 = cache) ∧
    (∀ ab f1 f2 cs e, co.load_audio path = .ok ab → co.extract_mfcc ab = .ok f1 →
        co.denoise f1 = .ok f2 → cache.get_chords f2 = none → co.suggest f2 = .ok cs →
        co.generate cs = .error e →
        (serviceCall co cache path).1 = .error e ∧
        (serviceCall co cache path).2.1 = cache.set_chords f2 cs) ∧
    (∀ e s, sg w = .error e → wsValidate j = some s →
        (sessionRun sg [.window w, .recv (.text j), .window w]).outbound =
          [OutMsg.ready, OutMsg.ack] ∧
        (sessionRun sg [.window w, .recv (.text j), .window w]).alive = true) := by
  refine ⟨?_, ?_, ?_, ?_, ?_, ?_⟩
  · intro e hl
    constructor <;> simp [serviceCall, hl]
  · intro ab e hl hx
    constructor <;> simp [serviceCall, hl, hx]
  · intro ab f1 e hl hx hd
    constructor <;> simp [serviceCall, hl, hx, hd]
  · intro ab f1 f2 e hl hx hd hg hs
    constructor <;> simp [serviceCall, hl, hx, hd, hg, hs]
  · intro ab f1 f2 cs e hl hx hd hg hs hge
    constructor <;> simp [serviceCall, hl, hx, hd, hg, hs, hge]
  · intro e s hw hv
    constructor <;>
      simp [sessionRun, sessionInit, sessionStep, receiveMessage, processWindow, hw, hv]

/-- Witness for `collaborator_failure_policy`: a concrete accompaniment
failure after a cache miss (entry written, error returned) and a concrete
streaming suggestion failure (session still acknowledges a later message). -/
theorem collaborator_failure_policy_witness :
    ((serviceCall coAccFail { entries := [], backendUp := true } "y").1 =
        .error "accompaniment backend down" ∧
      (serviceCall coAccFail { entries := [], backendUp := true } "y").2.1 =
        RedisCache.set_chords { entries := [], backendUp := true } [7, 8] ["C", "G"]) ∧
    ((sessionRun sgFail
        [.window [1], .recv (.text (.obj [("data", .str "AB")])), .window [1]]).outbound =
        [OutMsg.ready, OutMsg.ack] ∧
      (sessionRun sgFail
        [.window [1], .recv (.text (.obj [("data", .str "AB")])), .window [1]]).alive = true) :=
  ⟨(collaborator_failure_policy coAccFail { entries := [], backendUp := true } "y"
      sgFail [1] (.obj [("data", .str "AB")])).2.2.2.2.1
      [7, 8] [7, 8] [7, 8] ["C", "G"] "accompaniment backend down" rfl rfl rfl rfl rfl rfl,
   (collaborator_failure_policy coAccFail { entries := [], backendUp := true } "y"
      sgFail [1] (.obj [("data", .str "AB")])).2.2.2.2.2
      "llm down" "AB" rfl rfl⟩

/-- Claim C6: when the cache backend is down, every `get_chords` degrades to a
miss and every `set_chords` is a silent no-op, so the pipeline still produces
the response via the compute path, returns no error, and leaves the cache
unchanged.  (`RedisCache` is not in the provided source tree; its outage
behaviour is modelled from spec §4.2.) -/
theorem cache_outage_degrades_to_miss (co : Collaborators) (cache : RedisCache)
    (path : String) (ab : List Nat) (f1 f2 : Features) (cs acc : List String)
    (hb : cache.backendUp = false)
    (hl : co.load_audio path = .ok ab)
    (hx : co.extract_mfcc ab = .ok f1)
    (hd : co.denoise f1 = .ok f2)
    (hs : co.suggest f2 = .ok cs)
    (hge : co.generate cs = .ok acc) :
    serviceCall co cache path = (.ok ⟨cs, acc⟩, cache, missTrace) := by
  have h1 : cache.get_chords f2 = none := by simp [RedisCache.get_chords, hb]
  have h2 : cache.set_chords f2 cs = cache := by simp [RedisCache.set_chords, hb]
  simp [serviceCall, missTrace, hl, hx, hd, hs, hge, h1, h2]

/-- Witness for `cache_outage_degrades_to_miss`: with the backend down, even a
(stale) stored entry is invisible, the compute path runs, and the result is
returned with no error. -/
theorem cache_outage_degrades_to_miss_witness :
    serviceCall coDemo { entries := [([7, 8], ["STALE"])], backendUp := false } "x" =
      (.ok ⟨["C", "G"], ["tab", "C", "G"]⟩,
        { entries := [([7, 8], ["STALE"])], backendUp := false }, missTrace) :=
  cache_outage_degrades_to_miss coDemo { entries := [([7, 8], ["STALE"])], backendUp := false }
    "x" [7, 8] [7, 8] [7, 8] ["C", "G"] ["tab", "C", "G"] rfl rfl rfl rfl rfl rfl

/-- Claim C7 counterexample: the streaming processing task executes the
CPU-bound chord-suggestion collaborator inline on the event loop
(`chords = suggester.suggest(features)` with no `run_in_threadpool`),
contradicting the claim that every CPU-bound collaborator call is dispatched
to a worker pool. -/
theorem streaming_suggest_inline_cex :
    (Step.suggestStep, Dispatch.inlineSync) ∈ (processWindow sgDemo [3]).2 ∧
    threadpooled (processWindow sgDemo [3]).2 = false := by
  decide

/-- Claim C7 (amended): in the request/response path every CPU-bound
collaborator call (feature extraction, denoising, suggestion, accompaniment)
is dispatched via `run_in_threadpool`, but the streaming processing task calls
chord suggestion inline on the scheduler that drives heartbeats and receive
loops. -/
theorem dispatch_policy_amended :
    (∀ co cache path, threadpooled (serviceCall co cache path).2.2 = true) ∧
    (∀ sg w, (processWindow sg w).2 = [(Step.suggestStep, Dispatch.inlineSync)]) := by
  constructor
  · intro co cache path
    unfold serviceCall
    repeat' split
    all_goals rfl
  · intro sg w
    cases h : sg w <;> simp [processWindow, h]

/-- Claim C8: calling the chord endpoint twice with the same file path under
deterministic collaborators returns equal chord and accompaniment sequences,
and the second call is served from the cache: its suggestion step does not
appear in the trace.  (Cache read-your-write is modelled from spec §4.2/§8
since `RedisCache` is not in the provided source tree.) -/
theorem repeat_request_cache_hit (co : Collaborators) (cache : RedisCache) (path : String)
    (ab : List Nat) (f1 f2 : Features) (cs0 acc : List String)
    (hb : cache.backendUp = true)
    (hl : co.load_audio path = .ok ab)
    (hx : co.extract_mfcc ab = .ok f1)
    (hd : co.denoise f1 = .ok f2)
    (hs : co.suggest f2 = .ok cs0)
    (hge : co.generate ((cache.get_chords f2).getD cs0) = .ok acc) :
    ((serviceCall co cache path).1 = .ok ⟨(cache.get_chords f2).getD cs0, acc⟩) ∧
    ((serviceCall co (serviceCall co cache path).2.1 path).1 = (serviceCall co cache path).1) ∧
    Step.suggestStep ∉ (serviceCall co (serviceCall co cache path).2.1 path).2.2.map Prod.fst := by
  cases hg : cache.get_chords f2 with
  | some cs =>
    have hge' : co.generate cs = .ok acc := by simpa [hg] using hge
    have h1 : serviceCall co cache path = (.ok ⟨cs, acc⟩, cache, hitTrace) :=
      (serviceCall_hit_miss co cache path ab f1 f2 hl hx hd).1 cs acc hg hge'
    exact ⟨by simp [h1], by simp [h1], by simp [h1, hitTrace]⟩
  | none =>
    have hge' : co.generate cs0 = .ok acc := by simpa [hg] using hge
    have h1 : serviceCall co cache path =
        (.ok ⟨cs0, acc⟩, cache.set_chords f2 cs0, missTrace) :=
      (serviceCall_hit_miss co cache path ab f1 f2 hl hx hd).2 cs0 acc hg hs hge'
    have h2 : (cache.set_chords f2 cs0).get_chords f2 = some cs0 := by
      simp [RedisCache.set_chords, RedisCache.get_chords, hb, lookupEntry]
    have h3 : serviceCall co (cache.set_chords f2 cs0) path =
        (.ok ⟨cs0, acc⟩, cache.set_chords f2 cs0, hitTrace) :=
      (serviceCall_hit_miss co (cache.set_chords f2 cs0) path ab f1 f2 hl hx hd).1
        cs0 acc h2 hge'
    exact ⟨by simp [h1], by simp [h1, h3], by simp [h1, h3, hitTrace]⟩

/-- Witness for `repeat_request_cache_hit` at concrete collaborators starting
from an empty cache: the first call computes, the second is a hit. -/
theorem repeat_request_cache_hit_witness :
    ((serviceCall coDemo { entries := [], backendUp := true } "x").1 =
      .ok ⟨["C", "G"], ["tab", "C", "G"]⟩) ∧
    ((serviceCall coDemo
        (serviceCall coDemo { entries := [], backendUp := true } "x").2.1 "x").1 =
      (serviceCall coDemo { entries := [], backendUp := true } "x").1) ∧
    Step.suggestStep ∉
      (serviceCall coDemo
        (serviceCall coDemo { entries := [], backendUp := true } "x").2.1 "x").2.2.map Prod.fst :=
  repeat_request_cache_hit coDemo { entries := [], backendUp := true } "x"
    [7, 8] [7, 8] [7, 8] ["C", "G"] ["tab", "C", "G"] rfl rfl rfl rfl rfl rfl

/-- Auxiliary induction for the streaming protocol: starting from any live
state with a live processing task, a run over clean events appends exactly one
message per event. -/
theorem sessionRun_outbound_aux (sg : Features → Except Err (List String))
    (events : List SessEvent) :
    ∀ st : SessionState, st.alive = true → st.procAlive = true →
      (∀ e ∈ events, validEvent sg e = true) →
      (List.foldl (sessionStep sg) st events).outbound =
        st.outbound ++ events.map (emitOne sg) := by
  induction events with
  | nil => intro st _ _ _; simp
  | cons e rest ih =>
    intro st h1 h2 h3
    have hrest : ∀ x ∈ rest, validEvent sg x = true := fun x hx =>
      h3 x (List.mem_cons_of_mem e hx)
    have he : validEvent sg e = true := h3 e (List.mem_cons_self e rest)
    cases e with
    | tick =>
      rw [List.foldl_cons]
      have hstep : sessionStep sg st .tick =
          { st with outbound := st.outbound ++ [.ping] } := by
        simp [sessionStep, h1]
      rw [hstep, ih { st with outbound := st.outbound ++ [.ping] } h1 h2 hrest]
      simp [emitOne]
    | recv m =>
      cases m with
      | invalid => simp [validEvent, wsMalformed] at he
      | text j =>
        cases hv : wsValidate j with
        | none => rw [validEvent, wsMalformed] at he; simp [hv] at he
        | some s =>
          rw [List.foldl_cons]
          have hstep : sessionStep sg st (.recv (.text j)) =
              { st with
                  bufferData := st.bufferData ++ encodeUtf8 s
                  outbound := st.outbound ++ [.ack] } := by
            simp [sessionStep, h1, receiveMessage, hv]
          rw [hstep, ih
            { st with
                bufferData := st.bufferData ++ encodeUtf8 s
                outbound := st.outbound ++ [.ack] } h1 h2 hrest]
          simp [emitOne]
    | window w =>
      cases hw : sg w with
      | error e0 => rw [validEvent] at he; simp [hw] at he
      | ok cs =>
        rw [List.foldl_cons]
        have hstep : sessionStep sg st (.window w) =
            { st with outbound := st.outbound ++ [.chords cs] } := by
          simp [sessionStep, h1, h2, processWindow, hw]
        rw [hstep, ih { st with outbound := st.outbound ++ [.chords cs] } h1 h2 hrest]
        simp [emitOne, hw, Except.toOption]

/-- Claim C9: the outbound messages of a streaming session are exactly
`{"ready": true}` once at session start, then one message per event in order —
`{"ack": true}` per accepted inbound message, `{"type": "ping"}` per heartbeat
tick, `{"chords": [...]}` per processed feature window — and nothing else.
(Heartbeat timing is abstracted to tick events; `AdaptiveBuffer` emission is
abstracted to window events.) -/
theorem session_outbound_protocol (sg : Features → Except Err (List String))
    (events : List SessEvent)
    (h : ∀ e ∈ events, validEvent sg e = true) :
    (sessionRun sg events).outbound = OutMsg.ready :: events.map (emitOne sg) := by
  have := sessionRun_outbound_aux sg events sessionInit rfl rfl h
  simpa [sessionRun, sessionInit] using this

/-- Witness for `session_outbound_protocol` over a concrete run: start, a
ping, an accepted message, a processed window, another ping. -/
theorem session_outbound_protocol_witness :
    (sessionRun sgDemo
        [.tick, .recv (.text (.obj [("data", .str "AA")])), .window [1], .tick]).outbound =
      [OutMsg.ready, OutMsg.ping, OutMsg.ack, OutMsg.chords ["C"], OutMsg.ping] :=
  session_outbound_protocol sgDemo
    [.tick, .recv (.text (.obj [("data", .str "AA")])), .window [1], .tick] (by decide)

/-- Claim C10: an inbound envelope is accepted whenever it is a JSON object
whose `data` field is a string, regardless of extra unknown fields (pydantic
ignores them); on acceptance exactly the UTF-8 encoding of `data` is appended
to the `AdaptiveBuffer`, and the acknowledgment action comes only after the
buffer append in the iteration's action order. -/
theorem envelope_accept_utf8_append (st : SessionState)
    (fields : List (String × Json)) (s : String)
    (h : lookupField fields "data" = some (.str s)) :
    receiveMessage st (.text (.obj fields)) =
      ({ st with
          bufferData := st.bufferData ++ encodeUtf8 s
          outbound := st.outbound ++ [.ack] },
       [.bufferAdd (encodeUtf8 s), .sendAck]) := by
  simp [receiveMessage, wsValidate, h]

/-- Witness for `envelope_accept_utf8_append`: an envelope carrying extra
unknown fields around `data: "AA"` is accepted, the two bytes `[65, 65]` are
appended, and the acknowledgment follows the append. -/
theorem envelope_accept_utf8_append_witness :
    receiveMessage sessionInit
        (.text (.obj [("extra", .num 5), ("data", .str "AA"), ("more", .bool true)])) =
      ({ sessionInit with bufferData := [65, 65], outbound := [.ready, .ack] },
       [.bufferAdd [65, 65], .sendAck]) :=
  envelope_accept_utf8_append sessionInit
    [("extra", .num 5), ("data", .str "AA"), ("more", .bool true)] "AA" rfl

end ClockworkRed
